import Mathlib

/-!
Shallow embedding of the revenue ledger of `src/revenue-engine/revenue_tracker.py`
(class `QuantumRevenueEngine` and its data model), together with theorems settling
the specification claims about it.

Numbers are modelled by `ℚ` (the Python code uses floats, but every operation
involved is exact rational arithmetic), timestamps by an abstract `Nat` threaded
into the operations that record a call time, and the Python `dict` of products by
an association list with Python-dict update semantics (assignment replaces the
value in place when the key is present, otherwise appends at the end).
Every method that may mutate `self` is modelled as a function returning the
method's result paired with the updated engine state.
-/

namespace RevenueTracker

/-- Revenue stream types, mirroring the `RevenueStream` enum. -/
inductive RevenueStream where
  | saas_subscription
  | usage_based
  | enterprise_license
  | marketplace
deriving DecidableEq

/-- Individual revenue metric, mirroring the `RevenueMetric` dataclass.
The `timestamp` field is the (abstract) creation time. -/
structure RevenueMetric where
  stream_type : RevenueStream
  amount : ℚ
  currency : String
  timestamp : Nat
  source_product : String
deriving DecidableEq

/-- Product revenue record, mirroring the `ProductRevenue` dataclass. -/
structure ProductRevenue where
  product_id : String
  product_name : String
  pricing_tier_min : ℚ
  pricing_tier_max : ℚ
  monthly_recurring_revenue : ℚ
  active_customers : Int
  churn_rate : ℚ
  lifetime_value : ℚ
  revenue_history : List RevenueMetric
deriving DecidableEq

/-- Engine state, mirroring the fields set in `QuantumRevenueEngine.__init__`. -/
structure QuantumRevenueEngine where
  products : List (String × ProductRevenue)
  total_revenue_history : List RevenueMetric
  created_at : Nat
deriving DecidableEq

/-- Python-dict assignment `d[k] = v`: replace in place if the key is present,
otherwise append the binding at the end. -/
def dictSet (k : String) (v : ProductRevenue) :
    List (String × ProductRevenue) → List (String × ProductRevenue)
  | [] => [(k, v)]
  | (k', v') :: rest => if k' = k then (k, v) :: rest else (k', v') :: dictSet k v rest

/-- Python-dict lookup `d[k]` (as an option). -/
def dictGet (k : String) : List (String × ProductRevenue) → Option ProductRevenue
  | [] => none
  | (k', v') :: rest => if k' = k then some v' else dictGet k rest

/-- Python membership test `k in d`. -/
def dictContains (k : String) (l : List (String × ProductRevenue)) : Bool :=
  (dictGet k l).isSome

/-- In-place mutation of the record stored under `k` (Python mutates the record
object through the reference held by the dict). -/
def dictModify (k : String) (f : ProductRevenue → ProductRevenue) :
    List (String × ProductRevenue) → List (String × ProductRevenue)
  | [] => []
  | (k', v') :: rest => if k' = k then (k', f v') :: rest else (k', v') :: dictModify k f rest

/-- `QuantumRevenueEngine.register_product`: build a fresh `ProductRevenue` with
the dataclass defaults (`active_customers=0`, `churn_rate=0.0`,
`lifetime_value=0.0`, empty history) and assign it under `product_id`. -/
def register_product (e : QuantumRevenueEngine) (product_id product_name : String)
    (pricing_min pricing_max target_mrr : ℚ) :
    ProductRevenue × QuantumRevenueEngine :=
  let product : ProductRevenue :=
    { product_id := product_id
      product_name := product_name
      pricing_tier_min := pricing_min
      pricing_tier_max := pricing_max
      monthly_recurring_revenue := target_mrr
      active_customers := 0
      churn_rate := 0
      lifetime_value := 0
      revenue_history := [] }
  (product, { e with products := dictSet product_id product e.products })

/-- `QuantumRevenueEngine.record_transaction`: return `false` without mutation if
the product is unregistered; otherwise append a fresh metric (timestamped `now`)
to the product's history and to the global history and return `true`. -/
def record_transaction (e : QuantumRevenueEngine) (product_id : String) (amount : ℚ)
    (stream_type : RevenueStream) (now : Nat) : Bool × QuantumRevenueEngine :=
  if dictContains product_id e.products then
    let metric : RevenueMetric :=
      { stream_type := stream_type
        amount := amount
        currency := "USD"
        timestamp := now
        source_product := product_id }
    (true,
      { e with
        products := dictModify product_id
          (fun p => { p with revenue_history := p.revenue_history ++ [metric] }) e.products
        total_revenue_history := e.total_revenue_history ++ [metric] })
  else
    (false, e)

/-- `QuantumRevenueEngine.update_customer_count`. -/
def update_customer_count (e : QuantumRevenueEngine) (product_id : String)
    (customer_count : Int) : Bool × QuantumRevenueEngine :=
  if dictContains product_id e.products then
    (true,
      { e with
        products := dictModify product_id
          (fun p => { p with active_customers := customer_count }) e.products })
  else
    (false, e)

/-- `QuantumRevenueEngine.calculate_churn_rate`: early `0.0` return on a zero
divisor, otherwise `max(0, previous - current) / previous * 100`, stored on the
product's record when the product is registered. `period_days` is accepted but
unused, exactly as in the source. -/
def calculate_churn_rate (e : QuantumRevenueEngine) (product_id : String)
    (previous_customers current_customers : Int) (period_days : Int) :
    ℚ × QuantumRevenueEngine :=
  if previous_customers = 0 then
    (0, e)
  else
    let churned : Int := max 0 (previous_customers - current_customers)
    let churn_rate : ℚ := ((churned : ℚ) / (previous_customers : ℚ)) * 100
    if dictContains product_id e.products then
      (churn_rate,
        { e with
          products := dictModify product_id
            (fun p => { p with churn_rate := churn_rate }) e.products })
    else
      (churn_rate, e)

/-- `QuantumRevenueEngine.calculate_ltv`: plain multiplication, stored on the
product's record when the product is registered. -/
def calculate_ltv (e : QuantumRevenueEngine) (product_id : String)
    (avg_monthly_revenue : ℚ) (avg_customer_lifespan_months : Int) :
    ℚ × QuantumRevenueEngine :=
  let ltv : ℚ := avg_monthly_revenue * (avg_customer_lifespan_months : ℚ)
  if dictContains product_id e.products then
    (ltv,
      { e with
        products := dictModify product_id
          (fun p => { p with lifetime_value := ltv }) e.products })
  else
    (ltv, e)

/-- Numeric content of the dict returned by
`QuantumRevenueEngine.get_portfolio_summary` (the formatted strings carry
exactly these numbers). -/
structure PortfolioSummary where
  total_products : Nat
  total_mrr : ℚ
  total_arr : ℚ
  total_active_customers : Int
  average_churn_rate : ℚ
deriving DecidableEq

/-- `QuantumRevenueEngine.get_portfolio_summary`: sums over `products.values()`
and the guarded arithmetic mean of churn rates. -/
def get_portfolio_summary (e : QuantumRevenueEngine) : PortfolioSummary :=
  let total_mrr : ℚ := (e.products.map (fun kv => kv.2.monthly_recurring_revenue)).sum
  let total_arr : ℚ := total_mrr * 12
  let total_customers : Int := (e.products.map (fun kv => kv.2.active_customers)).sum
  let avg_churn : ℚ :=
    if e.products.isEmpty then 0
    else (e.products.map (fun kv => kv.2.churn_rate)).sum / (e.products.length : ℚ)
  { total_products := e.products.length
    total_mrr := total_mrr
    total_arr := total_arr
    total_active_customers := total_customers
    average_churn_rate := avg_churn }

/-- Numeric content of one entry of `QuantumRevenueEngine.project_revenue`
(the projection date is `now + 30 * month` days and carries no further data). -/
structure Projection where
  month : Nat
  projected_mrr : ℚ
  projected_arr : ℚ
deriving DecidableEq

/-- Inner loop of `project_revenue`: the month-`m` total, accumulated over
`products.values()` as `monthly_recurring_revenue * (1 - churn_rate/100) ** m`. -/
def projectedTotal (e : QuantumRevenueEngine) (month : Nat) : ℚ :=
  (e.products.map (fun kv =>
    kv.2.monthly_recurring_revenue * (1 - kv.2.churn_rate / 100) ^ month)).sum

/-- `QuantumRevenueEngine.project_revenue`: one entry per month `1..months`;
the method reads `self` but never assigns to it, so the state is returned
unchanged. -/
def project_revenue (e : QuantumRevenueEngine) (months : Nat) :
    List Projection × QuantumRevenueEngine :=
  ((List.range months).map (fun i =>
    { month := i + 1
      projected_mrr := projectedTotal e (i + 1)
      projected_arr := projectedTotal e (i + 1) * 12 }), e)

/-! Helper lemmas about the dict operations. -/

theorem dictGet_dictSet_self (k : String) (v : ProductRevenue)
    (l : List (String × ProductRevenue)) : dictGet k (dictSet k v l) = some v := by
  induction l with
  | nil => simp [dictSet, dictGet]
  | cons hd tl ih =>
    by_cases h : hd.1 = k
    · simp [dictSet, dictGet, h]
    · simpa [dictSet, dictGet, h] using ih

theorem dictGet_dictSet_ne (k k' : String) (v : ProductRevenue)
    (l : List (String × ProductRevenue)) (h : k ≠ k') :
    dictGet k (dictSet k' v l) = dictGet k l := by
  induction l with
  | nil => simp [dictSet, dictGet, Ne.symm h]
  | cons hd tl ih =>
    by_cases hk : hd.1 = k'
    · simp [dictSet, dictGet, hk, Ne.symm h]
    · simp only [dictSet, if_neg hk, dictGet]
      by_cases hk2 : hd.1 = k
      · simp [hk2]
      · simpa [hk2] using ih

theorem dictGet_dictModify_self (k : String) (f : ProductRevenue → ProductRevenue)
    (l : List (String × ProductRevenue)) :
    dictGet k (dictModify k f l) = (dictGet k l).map f := by
  induction l with
  | nil => simp [dictModify, dictGet]
  | cons hd tl ih =>
    by_cases h : hd.1 = k
    · simp [dictModify, dictGet, h]
    · simpa [dictModify, dictGet, h] using ih

/-! Sample engine state used by the witnesses: one registered product with an
empty history, as produced by registration followed by a customer-count
update. -/

/-- Sample registered product record for witnesses. -/
def sampleProduct : ProductRevenue :=
  { product_id := "mesh-messenger"
    product_name := "Zero-Human Mesh Messenger"
    pricing_tier_min := 9
    pricing_tier_max := 99
    monthly_recurring_revenue := 14500
    active_customers := 2000
    churn_rate := 5
    lifetime_value := 0
    revenue_history := [] }

/-- Sample engine holding `sampleProduct`. -/
def sampleEngine : QuantumRevenueEngine :=
  { products := [("mesh-messenger", sampleProduct)]
    total_revenue_history := []
    created_at := 0 }

/-- C7: two calls to `calculate_churn_rate` that differ only in `period_days`
return the same value and leave the ledger in the same state. -/
theorem churn_rate_ignores_period_days (e : QuantumRevenueEngine) (product_id : String)
    (previous_customers current_customers d1 d2 : Int) :
    calculate_churn_rate e product_id previous_customers current_customers d1 =
      calculate_churn_rate e product_id previous_customers current_customers d2 := rfl

/-- C8: `project_revenue` returns the engine state unchanged, for every state
and every `months`. -/
theorem project_revenue_leaves_ledger_unchanged (e : QuantumRevenueEngine)
    (months : Nat) : (project_revenue e months).2 = e := rfl

/-- C9: `calculate_churn_rate` with `previous_customers = 0` returns `0` and
leaves the whole ledger unchanged — the early return fires before the store
step, so a registered product keeps its prior `churn_rate`. -/
theorem churn_rate_zero_previous_no_store (e : QuantumRevenueEngine)
    (product_id : String) (current_customers period_days : Int) :
    calculate_churn_rate e product_id 0 current_customers period_days = (0, e) := by
  simp [calculate_churn_rate]

/-- C1: for every ledger state and every `months ≥ 1`, `project_revenue` returns
exactly `months` entries with month indices `1..months` strictly increasing,
entry `m` carrying projected MRR `Σ target_mrr * (1 - churn_rate/100) ^ m` over
all registered products and projected ARR twelve times that; a product with
`churn_rate = 0` contributes exactly its target MRR to every month. -/
theorem project_revenue_entries (e : QuantumRevenueEngine) (months : Nat)
    (h : 1 ≤ months) :
    (project_revenue e months).1.length = months ∧
    (∀ i, i < months →
      (project_revenue e months).1.get? i =
        some { month := i + 1
               projected_mrr := projectedTotal e (i + 1)
               projected_arr := projectedTotal e (i + 1) * 12 }) ∧
    ((project_revenue e months).1.map Projection.month).Pairwise (· < ·) ∧
    (∀ kv ∈ e.products, kv.2.churn_rate = 0 → ∀ m : Nat,
      kv.2.monthly_recurring_revenue * (1 - kv.2.churn_rate / 100) ^ m =
        kv.2.monthly_recurring_revenue) := by
  refine ⟨by simp [project_revenue], ?_, ?_, ?_⟩
  · intro i hi
    simp [project_revenue, List.get?_eq_getElem?, List.getElem?_map,
      List.getElem?_range hi]
  · have hmap : ((project_revenue e months).1.map Projection.month) =
        (List.range months).map (fun i => i + 1) := by
      simp only [project_revenue, List.map_map]
      rfl
    rw [hmap]
    exact (List.pairwise_lt_range months).map _ (fun a b hab => Nat.succ_lt_succ hab)
  · intro kv _ hc m
    simp [hc]

/-- C1 witness: `project_revenue` on the sample engine with `months = 2`. -/
theorem project_revenue_entries_witness :
    1 ≤ 2 ∧ (project_revenue sampleEngine 2).1.length = 2 :=
  ⟨by decide, (project_revenue_entries sampleEngine 2 (by decide)).1⟩

/-- C2: `calculate_churn_rate` returns `0` when `previous_customers = 0` and
otherwise `max 0 (previous - current) / previous * 100`; at previous `2100` and
current `2000` it returns `(100/2100)*100`. -/
theorem churn_rate_value (e : QuantumRevenueEngine) (product_id : String)
    (previous_customers current_customers period_days : Int) :
    (calculate_churn_rate e product_id previous_customers current_customers period_days).1 =
      (if previous_customers = 0 then 0
       else ((max 0 (previous_customers - current_customers) : Int) : ℚ) /
         (previous_customers : ℚ) * 100) ∧
    (calculate_churn_rate e product_id 2100 2000 30).1 = 100 / 2100 * 100 := by
  constructor
  · by_cases hp : previous_customers = 0
    · simp [calculate_churn_rate, hp]
    · cases hc : dictContains product_id e.products <;>
        simp [calculate_churn_rate, hp, hc]
  · have hmax : (max 0 (2100 - 2000) : Int) = 100 := by decide
    cases hc : dictContains product_id e.products <;>
      simp [calculate_churn_rate, hc, hmax]

/-- C3: `record_transaction` on an unregistered id returns `false` and leaves the
whole ledger unchanged; on a registered id it returns `true` and appends exactly
one new metric (any amount accepted) to both the product's history and the
global history. -/
theorem record_transaction_spec (e : QuantumRevenueEngine) (product_id : String)
    (amount : ℚ) (stream_type : RevenueStream) (now : Nat) :
    (dictContains product_id e.products = false →
      record_transaction e product_id amount stream_type now = (false, e)) ∧
    (dictContains product_id e.products = true →
      (record_transaction e product_id amount stream_type now).1 = true ∧
      (record_transaction e product_id amount stream_type now).2.total_revenue_history =
        e.total_revenue_history ++
          [{ stream_type := stream_type, amount := amount, currency := "USD",
             timestamp := now, source_product := product_id }] ∧
      (dictGet product_id
          (record_transaction e product_id amount stream_type now).2.products).map
          (fun p => p.revenue_history) =
        (dictGet product_id e.products).map
          (fun p => p.revenue_history ++
            [{ stream_type := stream_type, amount := amount, currency := "USD",
               timestamp := now, source_product := product_id }])) := by
  constructor
  · intro hc
    simp [record_transaction, hc]
  · intro hc
    refine ⟨by simp [record_transaction, hc], by simp [record_transaction, hc], ?_⟩
    simp only [record_transaction, hc, if_true]
    rw [dictGet_dictModify_self]
    cases dictGet product_id e.products <;> simp

/-- C3 witness: recording on the sample engine's registered product succeeds. -/
theorem record_transaction_spec_witness :
    (record_transaction sampleEngine "mesh-messenger" 5
      RevenueStream.saas_subscription 7).1 = true :=
  ((record_transaction_spec sampleEngine "mesh-messenger" 5
    RevenueStream.saas_subscription 7).2 (by decide)).1

/-- C4: `get_portfolio_summary` reports total MRR as the sum of registered
products' `monthly_recurring_revenue`, total ARR as that sum times 12, total
active customers as the sum of `active_customers`, and the average churn rate as
the arithmetic mean of the `churn_rate` values, `0` when no product is
registered. -/
theorem portfolio_summary_spec (e : QuantumRevenueEngine) :
    (get_portfolio_summary e).total_mrr =
      (e.products.map (fun kv => kv.2.monthly_recurring_revenue)).sum ∧
    (get_portfolio_summary e).total_arr =
      (e.products.map (fun kv => kv.2.monthly_recurring_revenue)).sum * 12 ∧
    (get_portfolio_summary e).total_active_customers =
      (e.products.map (fun kv => kv.2.active_customers)).sum ∧
    (get_portfolio_summary e).average_churn_rate =
      (if e.products.length = 0 then 0
       else (e.products.map (fun kv => kv.2.churn_rate)).sum /
         (e.products.length : ℚ)) := by
  refine ⟨rfl, rfl, rfl, ?_⟩
  cases h : e.products <;> simp [get_portfolio_summary, h]

/-- C5: `register_product` installs under `product_id` a record with zero
customers, zero churn, zero lifetime value and an empty history, regardless of
any prior registration, so re-registering resets that product's history length
to `0`. -/
theorem register_product_resets (e : QuantumRevenueEngine)
    (product_id product_name : String) (pricing_min pricing_max target_mrr : ℚ) :
    dictGet product_id
        (register_product e product_id product_name pricing_min pricing_max
          target_mrr).2.products =
      some { product_id := product_id
             product_name := product_name
             pricing_tier_min := pricing_min
             pricing_tier_max := pricing_max
             monthly_recurring_revenue := target_mrr
             active_customers := 0
             churn_rate := 0
             lifetime_value := 0
             revenue_history := [] } ∧
    (dictGet product_id
        (register_product e product_id product_name pricing_min pricing_max
          target_mrr).2.products).map
      (fun p => p.revenue_history.length) = some 0 := by
  refine ⟨?_, ?_⟩ <;> simp [register_product, dictGet_dictSet_self]

/-- C6: `calculate_ltv` always returns `avg_monthly_revenue *
avg_customer_lifespan_months` (so `72.5 * 24 = 1740`); when the product is
registered the value is stored as its `lifetime_value`, and when it is not the
state is unchanged with no failure signaled. -/
theorem ltv_spec (e : QuantumRevenueEngine) (product_id : String)
    (avg_monthly_revenue : ℚ) (avg_customer_lifespan_months : Int) :
    (calculate_ltv e product_id avg_monthly_revenue avg_customer_lifespan_months).1 =
      avg_monthly_revenue * (avg_customer_lifespan_months : ℚ) ∧
    (calculate_ltv e product_id 72.5 24).1 = 1740 ∧
    (dictContains product_id e.products = true →
      (dictGet product_id
          (calculate_ltv e product_id avg_monthly_revenue
            avg_customer_lifespan_months).2.products).map
        (fun p => p.lifetime_value) =
        some (avg_monthly_revenue * (avg_customer_lifespan_months : ℚ))) ∧
    (dictContains product_id e.products = false →
      (calculate_ltv e product_id avg_monthly_revenue
        avg_customer_lifespan_months).2 = e) := by
  refine ⟨?_, ?_, ?_, ?_⟩
  · cases hc : dictContains product_id e.products <;> simp [calculate_ltv, hc]
  · cases hc : dictContains product_id e.products <;>
      simp [calculate_ltv, hc] <;> norm_num
  · intro hc
    rcases hg : dictGet product_id e.products with _ | p
    · simp [dictContains, hg] at hc
    · simp [calculate_ltv, dictContains, hg, dictGet_dictModify_self]
  · intro hc
    simp [calculate_ltv, hc]

/-- C6 witness: the LTV is stored on the sample engine's registered product. -/
theorem ltv_spec_witness :
    (dictGet "mesh-messenger"
        (calculate_ltv sampleEngine "mesh-messenger" 72.5 24).2.products).map
      (fun p => p.lifetime_value) = some ((72.5 : ℚ) * ((24 : Int) : ℚ)) :=
  (ltv_spec sampleEngine "mesh-messenger" 72.5 24).2.2.1 (by decide)

/-- C10: `register_product` touches only the mapping entry for the given id:
the global transaction history and every other product's record are unchanged. -/
theorem register_product_frame (e : QuantumRevenueEngine)
    (product_id product_name : String) (pricing_min pricing_max target_mrr : ℚ)
    (k : String) (hk : k ≠ product_id) :
    (register_product e product_id product_name pricing_min pricing_max
        target_mrr).2.total_revenue_history = e.total_revenue_history ∧
    dictGet k (register_product e product_id product_name pricing_min pricing_max
        target_mrr).2.products = dictGet k e.products := by
  refine ⟨rfl, ?_⟩
  simp [register_product, dictGet_dictSet_ne _ _ _ _ hk]

/-- C10 witness: registering a second product leaves the sample engine's first
product and global history untouched. -/
theorem register_product_frame_witness :
    (register_product sampleEngine "governance-platform"
        "Zero-Human AI Governance Platform" 299 1999
        50000).2.total_revenue_history = sampleEngine.total_revenue_history ∧
    dictGet "mesh-messenger"
        (register_product sampleEngine "governance-platform"
          "Zero-Human AI Governance Platform" 299 1999 50000).2.products =
      dictGet "mesh-messenger" sampleEngine.products :=
  register_product_frame sampleEngine "governance-platform"
    "Zero-Human AI Governance Platform" 299 1999 50000 "mesh-messenger" (by decide)

end RevenueTracker
